import Mathlib

/-
Verification of the LikuBuddy auto-player subsystem: the snapshot parser
(StateParser), the Dino Run decision engine (DinoEngine), the key injector
rate limiter (KeySender), the control loop (AutoPlayer) and the CLI flag
handling (cli.ts), shallowly embedded as executable Lean definitions.

JavaScript numbers that only ever hold integers (timestamps, distances,
process ids, counters) are modelled as Int or Nat; the few fractional values
(velocity, confidence) are modelled as Rat. Regex searches of the source are
modelled by scanning functions that try the pattern at every position of the
string, exactly as an unanchored regex search does.
-/

set_option autoImplicit false

/-! ## String scanning utilities (regex search model) -/

/-- Digits of a decimal literal folded to a natural number, as parseInt does
on a digit-only capture. -/
def digitsToNat (ds : List Char) : Nat :=
  ds.foldl (fun n c => n * 10 + (c.toNat - '0'.toNat)) 0

/-- Match a literal pattern at the head of the input; on success return the
remainder of the input. -/
def matchLit : List Char → List Char → Option (List Char)
  | [], s => some s
  | _ :: _, [] => none
  | p :: ps, c :: cs => if p = c then matchLit ps cs else none

/-- Case-insensitive variant of `matchLit`, for regexes with the i flag. -/
def matchLitCI : List Char → List Char → Option (List Char)
  | [], s => some s
  | _ :: _, [] => none
  | p :: ps, c :: cs => if p.toLower = c.toLower then matchLitCI ps cs else none

/-- Unanchored regex search: try the position matcher at every suffix of the
input, leftmost match wins. -/
def scanFor {α : Type} (f : List Char → Option α) : List Char → Option α
  | [] => f []
  | s@(_ :: rest) =>
    match f s with
    | some a => some a
    | none => scanFor f rest

/-- JavaScript String.prototype.includes, via literal search. -/
def jsIncludes (content pat : String) : Bool :=
  (scanFor (matchLit pat.toList) content.toList).isSome

/-- A word character, the regex class of letters, digits and underscore. -/
def isWordChar (c : Char) : Bool :=
  c.isAlpha || c.isDigit || c = '_'

/-- JavaScript String.prototype.toLowerCase, character by character. -/
def jsToLower (s : String) : String :=
  String.mk (s.toList.map Char.toLower)

/-- JavaScript String.prototype.trim: strip whitespace from both ends. -/
def jsTrim (s : String) : String :=
  String.mk (((s.toList.dropWhile Char.isWhitespace).reverse.dropWhile
    Char.isWhitespace).reverse)

/-- Model of the regex tail "\s*(.+)": greedily skip whitespace, backtracking
just enough that the dot-plus group can match at least one non-newline
character, and capture up to the end of the line. Returns the captured text. -/
def wsThenLineAt (rest : List Char) : Option String :=
  let w := rest.takeWhile Char.isWhitespace
  (List.range (w.length + 1)).reverse.findSome? fun k =>
    match rest.drop k with
    | [] => none
    | c :: cs =>
      if c ≠ '\n' ∧ c ≠ '\r' then
        some (String.mk ((c :: cs).takeWhile fun d => d ≠ '\n' ∧ d ≠ '\r'))
      else none

/-- Position matcher for "LIT\s*(\d+)": literal, whitespace, then at least one
digit, captured as a Nat. -/
def natAfterLitAt (pat : List Char) (s : List Char) : Option Nat := do
  let r ← matchLit pat s
  let r := r.dropWhile Char.isWhitespace
  let ds := r.takeWhile Char.isDigit
  if ds.isEmpty then none else some (digitsToNat ds)

/-- Position matcher for "LIT\s*(-?\d+)": literal, whitespace, optional minus
sign, then at least one digit, captured as an Int. -/
def intAfterLitAt (pat : List Char) (s : List Char) : Option Int := do
  let r ← matchLit pat s
  let r := r.dropWhile Char.isWhitespace
  match r with
  | '-' :: r2 =>
    let ds := r2.takeWhile Char.isDigit
    if ds.isEmpty then none else some (-(digitsToNat ds : Int))
  | _ =>
    let ds := r.takeWhile Char.isDigit
    if ds.isEmpty then none else some ((digitsToNat ds : Int))

/-- Position matcher for "LIT\s*(\w+)": literal, whitespace, then at least one
word character, captured as a string. -/
def wordAfterLitAt (pat : List Char) (s : List Char) : Option String := do
  let r ← matchLit pat s
  let r := r.dropWhile Char.isWhitespace
  let ws := r.takeWhile isWordChar
  if ws.isEmpty then none else some (String.mk ws)

/-- Unanchored search for "LIT\s*(\d+)" anywhere in the content. -/
def findNatAfterLit (content : String) (pat : String) : Option Nat :=
  scanFor (natAfterLitAt pat.toList) content.toList

/-- Unanchored search for "LIT\s*(-?\d+)" anywhere in the content. -/
def findIntAfterLit (content : String) (pat : String) : Option Int :=
  scanFor (intAfterLitAt pat.toList) content.toList

/-- Unanchored search for "LIT\s*(\w+)" anywhere in the content. -/
def findWordAfterLit (content : String) (pat : String) : Option String :=
  scanFor (wordAfterLitAt pat.toList) content.toList

/-! ## Data model: ParsedState (StateParser.ts) -/

/-- One entry of the parsed menu state. -/
structure MenuItem where
  text : String
  selected : Bool
deriving Repr, DecidableEq

/-- Dino Run player sub-record of the snapshot. -/
structure DinoState where
  y : Int
  velocity : Rat
  isJumping : Bool
deriving Repr, DecidableEq

/-- Dino Run obstacle sub-record of the snapshot. -/
structure ObstacleState where
  distance : Int
  type : String
  y : Int
  shouldJump : Bool
deriving Repr, DecidableEq

/-- Dino Run lifecycle phase, as the union type in StateParser.ts. -/
inductive DinoGameState
  | START
  | COUNTDOWN
  | PLAYING
  | GAME_OVER
deriving Repr, DecidableEq

/-- Snake sub-record of the snapshot. -/
structure SnakeState where
  headX : Int
  headY : Int
  direction : String
  foodDeltaX : Int
  foodDeltaY : Int
  isDanger : Bool
  isGameOver : Bool
deriving Repr, DecidableEq

/-- Tic-Tac-Toe sub-record of the snapshot. -/
structure TicTacToeState where
  board : List String
  cursor : Int
  turn : String
  isGameOver : Bool
  winner : Option String
deriving Repr, DecidableEq

/-- The ParsedState interface of StateParser.ts. Optional interface fields
become Option, absent by default. -/
structure ParsedState where
  timestamp : Int
  pid : Option Nat
  pidValid : Bool
  screen : String
  status : String
  menuItems : Option (List MenuItem) := none
  selectedIndex : Option Int := none
  dino : Option DinoState := none
  obstacle : Option ObstacleState := none
  dinoGameState : Option DinoGameState := none
  countdown : Option Nat := none
  snake : Option SnakeState := none
  tictactoe : Option TicTacToeState := none
  raw : String
deriving Repr, DecidableEq

/-- Effects the parser consults while building a snapshot: the wall clock
(Date.now) and the OS process table probe (isProcessRunning). -/
structure ParseEnv where
  now : Int
  processRunning : Nat → Bool

/-- The regex match for "PROCESS ID:\s*(\d+)" over the whole content. -/
def extractPid (content : String) : Option Nat :=
  findNatAfterLit content "PROCESS ID:"

/-- extractValue of StateParser.ts: unanchored search for "LIT\s*(.+)", the
capture trimmed; the empty string when the pattern does not match. -/
def StateParser.extractValue (content : String) (pat : String) : String :=
  match scanFor (fun s => (matchLit pat.toList s).bind wsThenLineAt) content.toList with
  | some v => jsTrim v
  | none => ""

/-! ## Game sub-parsers (StateParser.ts) -/

/-- The ordered alternation (START|PLAYING|COUNTDOWN|GAME_OVER) of the dino
state regex, case-insensitive; returns the alternative upper-cased, as the
source applies toUpperCase to the capture. -/
def dinoStateAltAt (r : List Char) : Option String :=
  if (matchLitCI "START".toList r).isSome then some "START"
  else if (matchLitCI "PLAYING".toList r).isSome then some "PLAYING"
  else if (matchLitCI "COUNTDOWN".toList r).isSome then some "COUNTDOWN"
  else if (matchLitCI "GAME_OVER".toList r).isSome then some "GAME_OVER"
  else none

/-- Position matcher for the regex State:\s*(START|PLAYING|COUNTDOWN|GAME_OVER)
with the i flag. -/
def dinoStateMatchAt (s : List Char) : Option String := do
  let r ← matchLitCI "State:".toList s
  dinoStateAltAt (r.dropWhile Char.isWhitespace)

/-- parseFloat applied to a capture of the regex group (-?[\d.]+): the sign is
given separately, the body is a nonempty run of digits and dots. Returns none
where parseFloat returns NaN (no leading digits and no fractional digits). -/
def parseFloatOnCapture (neg : Bool) (body : List Char) : Option Rat :=
  let ip := body.takeWhile Char.isDigit
  let rest := body.drop ip.length
  let frac : List Char :=
    match rest with
    | '.' :: r2 => r2.takeWhile Char.isDigit
    | _ => []
  if ip.isEmpty ∧ frac.isEmpty then none
  else
    let mag : Rat := (digitsToNat ip : Rat) + (digitsToNat frac : Rat) / ((10 : Rat) ^ frac.length)
    some (if neg then -mag else mag)

/-- Position matcher for Velocity:\s*(-?[\d.]+), returning the sign and the
captured digit-and-dot run. -/
def velocityAt (s : List Char) : Option (Bool × List Char) := do
  let r ← matchLit "Velocity:".toList s
  let r := r.dropWhile Char.isWhitespace
  match r with
  | '-' :: r2 =>
    let body := r2.takeWhile (fun c => c.isDigit || c = '.')
    if body.isEmpty then none else some (true, body)
  | _ =>
    let body := r.takeWhile (fun c => c.isDigit || c = '.')
    if body.isEmpty then none else some (false, body)

/-- Position matcher for Next Obstacle:\s*Dist=(\d+),\s*Type=(\w+),\s*Y=(\d+),
returning distance, type and elevation. -/
def obstacleAt (s : List Char) : Option (Nat × String × Nat) := do
  let r ← matchLit "Next Obstacle:".toList s
  let r := r.dropWhile Char.isWhitespace
  let r ← matchLit "Dist=".toList r
  let ds := r.takeWhile Char.isDigit
  if ds.isEmpty then none else
  let r := r.drop ds.length
  let r ← matchLit ",".toList r
  let r := r.dropWhile Char.isWhitespace
  let r ← matchLit "Type=".toList r
  let ws := r.takeWhile isWordChar
  if ws.isEmpty then none else
  let r := r.drop ws.length
  let r ← matchLit ",".toList r
  let r := r.dropWhile Char.isWhitespace
  let r ← matchLit "Y=".toList r
  let ys := r.takeWhile Char.isDigit
  if ys.isEmpty then none else
  some (digitsToNat ds, String.mk ws, digitsToNat ys)

/-- parseDinoState of StateParser.ts: lifecycle phase from the STATUS line
with a content-based fallback, then the dino position and the next obstacle.
A velocity capture on which parseFloat yields NaN is modelled as 0; it cannot
arise from the emitter and no decision depends on it. -/
def StateParser.parseDinoState (content : String) (state : ParsedState) : ParsedState :=
  let state :=
    match scanFor dinoStateMatchAt content.toList with
    | some gs =>
      if gs = "START" then { state with dinoGameState := some .START }
      else if gs = "COUNTDOWN" then
        { state with dinoGameState := some .COUNTDOWN,
                     countdown := some ((findNatAfterLit content "COUNTDOWN:").getD 0) }
      else if gs = "GAME_OVER" then { state with dinoGameState := some .GAME_OVER }
      else { state with dinoGameState := some .PLAYING }
    | none =>
      if jsIncludes content "COUNTDOWN:" then
        { state with dinoGameState := some .COUNTDOWN,
                     countdown := some ((findNatAfterLit content "COUNTDOWN:").getD 0) }
      else if jsIncludes content "Final Score:" || jsIncludes content "Game Over" then
        { state with dinoGameState := some .GAME_OVER }
      else if jsIncludes content "Press ENTER to start" then
        { state with dinoGameState := some .START }
      else { state with dinoGameState := some .PLAYING }
  let state :=
    match findIntAfterLit content "Dino Y:" with
    | some y =>
      let velocity : Rat :=
        match scanFor velocityAt content.toList with
        | some (neg, body) => (parseFloatOnCapture neg body).getD 0
        | none => 0
      { state with dino := some { y := y, velocity := velocity,
                                  isJumping := decide (y > 0) || decide (velocity > 0) } }
    | none => state
  match scanFor obstacleAt content.toList with
  | some (dist, ty, y) =>
    { state with obstacle := some { distance := (dist : Int), type := ty, y := (y : Int),
                                    shouldJump := jsIncludes content "[JUMP NOW!]" } }
  | none =>
    if jsIncludes content "Next Obstacle: None" then
      { state with obstacle := some { distance := 999, type := "NONE", y := 0,
                                      shouldJump := false } }
    else state

/-- Variant of `intAfterLitAt` for regexes with no whitespace class between
the literal and the signed number, as in dx=(-?\d+). -/
def intAfterLitNoWsAt (pat : List Char) (s : List Char) : Option Int := do
  let r ← matchLit pat s
  match r with
  | '-' :: r2 =>
    let ds := r2.takeWhile Char.isDigit
    if ds.isEmpty then none else some (-(digitsToNat ds : Int))
  | _ =>
    let ds := r.takeWhile Char.isDigit
    if ds.isEmpty then none else some ((digitsToNat ds : Int))

/-- Unanchored search for LIT(-?\d+) anywhere in the content. -/
def findIntAfterLitNoWs (content : String) (pat : String) : Option Int :=
  scanFor (intAfterLitNoWsAt pat.toList) content.toList

/-- parseSnakeState of StateParser.ts. -/
def StateParser.parseSnakeState (content : String) (state : ParsedState) : ParsedState :=
  { state with snake := some {
      headX := 0, headY := 0,
      direction := (findWordAfterLit content "Direction:").getD "RIGHT",
      foodDeltaX := (findIntAfterLitNoWs content "dx=").getD 0,
      foodDeltaY := (findIntAfterLitNoWs content "dy=").getD 0,
      isDanger := jsIncludes content "DANGER",
      isGameOver := jsIncludes content "GAME OVER" } }

/-- One board cell of the tic-tac-toe board pattern, the regex class [XO.]. -/
def cellAt : List Char → Option (Char × List Char)
  | c :: r => if c = 'X' ∨ c = 'O' ∨ c = '.' then some (c, r) else none
  | [] => none

/-- The separator \s*\|\s* of the tic-tac-toe board pattern. -/
def pipeAt (s : List Char) : Option (List Char) :=
  match s.dropWhile Char.isWhitespace with
  | '|' :: r => some (r.dropWhile Char.isWhitespace)
  | _ => none

/-- Position matcher for ([XO.])\s*\|\s*([XO.])\s*\|\s*([XO.]), returning the
three cells and the remainder after the match. -/
def boardLineAt (s : List Char) : Option ((Char × Char × Char) × List Char) := do
  let (c1, r) ← cellAt s
  let r ← pipeAt r
  let (c2, r) ← cellAt r
  let r ← pipeAt r
  let (c3, r) ← cellAt r
  some ((c1, c2, c3), r)

/-- Global (g-flag) collection of board-line matches: search from each
position, and continue after the end of each match, as String.match with the
g flag does. Fuel bounds the recursion; content length plus one suffices since
every step consumes at least one character. -/
def collectBoardLines : Nat → List Char → List (Char × Char × Char)
  | 0, _ => []
  | _ + 1, [] => []
  | fuel + 1, s@(_ :: rest) =>
    match boardLineAt s with
    | some (cells, r) => cells :: collectBoardLines fuel r
    | none => collectBoardLines fuel rest

/-- parseTicTacToeState of StateParser.ts: the nine-cell board from the first
three board-line matches (dots becoming empty cells), cursor, turn, game-over
flag and winner. -/
def StateParser.parseTicTacToeState (content : String) (state : ParsedState) : ParsedState :=
  let cs := content.toList
  let lines := collectBoardLines (cs.length + 1) cs
  let board : List String :=
    if lines.length ≥ 3 then
      ((lines.take 3).foldr (fun t acc => t.1 :: t.2.1 :: t.2.2 :: acc) []).map
        (fun c => if c = '.' then "" else String.mk [c])
    else List.replicate 9 ""
  { state with tictactoe := some {
      board := board,
      cursor := ((findNatAfterLit content "Cursor Position:").map Int.ofNat).getD 4,
      turn := if jsIncludes content "Your Turn" then "X" else "O",
      isGameOver := jsIncludes content "Game Over",
      winner := if jsIncludes content "You Won" then some "X"
                else if jsIncludes content "Liku Won" then some "O"
                else if jsIncludes content "Draw" then some "DRAW"
                else none } }

/-- Variant of `wsThenLineAt` that also returns the remainder after the match,
for g-flag collection. -/
def wsThenLineWithRestAt (rest : List Char) : Option (String × List Char) :=
  let w := rest.takeWhile Char.isWhitespace
  (List.range (w.length + 1)).reverse.findSome? fun k =>
    match rest.drop k with
    | [] => none
    | c :: cs =>
      if c ≠ '\n' ∧ c ≠ '\r' then
        let cap := (c :: cs).takeWhile fun d => d ≠ '\n' ∧ d ≠ '\r'
        some (String.mk cap, (c :: cs).drop cap.length)
      else none

/-- Position matcher for the menu item pattern \[([ x])\]\s*(.+), returning
the item and the remainder after the match. -/
def menuItemAt (s : List Char) : Option (MenuItem × List Char) :=
  match s with
  | '[' :: m :: ']' :: r =>
    if m = ' ' ∨ m = 'x' then
      (wsThenLineWithRestAt r).map fun p => ({ text := jsTrim p.1, selected := m = 'x' }, p.2)
    else none
  | _ => none

/-- Global (g-flag) collection of menu item matches, fuelled like
`collectBoardLines`. -/
def collectMenuItems : Nat → List Char → List MenuItem
  | 0, _ => []
  | _ + 1, [] => []
  | fuel + 1, s@(_ :: rest) =>
    match menuItemAt s with
    | some (item, r) => item :: collectMenuItems fuel r
    | none => collectMenuItems fuel rest

/-- The selectedIndex accumulation of parseMenuState: the index of the last
selected item, or minus one when none is selected. -/
def lastSelectedIndex (items : List MenuItem) : Int :=
  (items.foldl (fun (p : Int × Int) it => (if it.selected then p.2 else p.1, p.2 + 1)) (-1, 0)).1

/-- parseMenuState of StateParser.ts. -/
def StateParser.parseMenuState (content : String) (state : ParsedState) : ParsedState :=
  let items := collectMenuItems (content.toList.length + 1) content.toList
  { state with menuItems := some items, selectedIndex := some (lastSelectedIndex items) }

/-- parseContent of StateParser.ts: extract the process id first; if the
single PROCESS ID field cannot be located (no match, or the JavaScript falsy
value zero), return the minimal snapshot with no game-specific fields. Only
then probe liveness, read the screen and status lines, and dispatch to the
game sub-parser selected by the lower-cased screen name. -/
def StateParser.parseContent (env : ParseEnv) (content : String) : ParsedState :=
  match extractPid content with
  | none =>
    { timestamp := env.now, pid := none, pidValid := false,
      screen := "", status := "", raw := content }
  | some p =>
    if p = 0 then
      { timestamp := env.now, pid := none, pidValid := false,
        screen := "", status := "", raw := content }
    else
      let state : ParsedState :=
        { timestamp := env.now, pid := some p, pidValid := env.processRunning p,
          screen := StateParser.extractValue content "CURRENT SCREEN:",
          status := StateParser.extractValue content "STATUS:",
          raw := content }
      let screen := jsToLower state.screen
      if jsIncludes screen "dinorun" || jsIncludes screen "dino run" then
        StateParser.parseDinoState content state
      else if jsIncludes screen "snake" then
        StateParser.parseSnakeState content state
      else if jsIncludes screen "tic-tac-toe" || jsIncludes screen "tictactoe" then
        StateParser.parseTicTacToeState content state
      else if jsIncludes screen "menu" then
        StateParser.parseMenuState content state
      else state

/-! ## StateParser.parse: caching wrapper over the snapshot file -/

/-- The observable snapshot file: whether stat and read succeed, the
modification time, and the content. -/
structure FileSys where
  fileExists : Bool
  mtimeMs : Int
  content : String

/-- The mutable fields of a StateParser instance. -/
structure StateParserState where
  lastModified : Int := 0
  cachedState : Option ParsedState := none
deriving Repr, DecidableEq

/-- hasChanged of StateParser.ts: stat the file and compare the modification
time; a stat failure is caught and reported as unchanged. -/
def StateParser.hasChanged (fs : FileSys) (ps : StateParserState) : Bool :=
  if fs.fileExists then decide (fs.mtimeMs > ps.lastModified) else false

/-- Outcome of one call to StateParser.parse: the returned snapshot, the
updated instance fields, and whether the file content was read. -/
structure ParseOutcome where
  result : Option ParsedState
  state : StateParserState
  readFile : Bool
deriving Repr, DecidableEq

/-- parse of StateParser.ts: return the cached snapshot when not forced, a
cache is present and the file has not changed; otherwise stat and read the
file, remember its modification time and cache the parsed content. A stat or
read failure is caught and yields null, leaving the cache untouched. -/
def StateParser.parse (env : ParseEnv) (fs : FileSys) (ps : StateParserState)
    (forceRefresh : Bool) : ParseOutcome :=
  if ¬forceRefresh ∧ ps.cachedState.isSome ∧ ¬StateParser.hasChanged fs ps then
    { result := ps.cachedState, state := ps, readFile := false }
  else if fs.fileExists then
    let st := StateParser.parseContent env fs.content
    { result := some st,
      state := { lastModified := fs.mtimeMs, cachedState := some st },
      readFile := true }
  else
    { result := none, state := ps, readFile := false }

/-! ## DinoEngine (games/DinoEngine.ts) -/

/-- The action component of a DinoDecision. -/
inductive DinoAction
  | jump
  | wait
  | start
  | restart
  | none
deriving Repr, DecidableEq

/-- DinoDecision of DinoEngine.ts. -/
structure DinoDecision where
  action : DinoAction
  confidence : Rat
  reason : String
deriving Repr, DecidableEq

/-- The fields of a DinoEngine instance: the four tunable parameters and the
cooldown bookkeeping timestamp. -/
structure DinoEngine where
  jumpDistanceMin : Int
  jumpDistanceMax : Int
  batSafeDistance : Int
  jumpCooldown : Int
  lastJumpTime : Int
deriving Repr, DecidableEq

/-- JavaScript null-or-default with the or operator, where 0 is falsy, as in
the DinoEngine constructor. -/
def jsOrIntDefault (v : Option Int) (d : Int) : Int :=
  match v with
  | some 0 => d
  | some n => n
  | Option.none => d

/-- The DinoEngine constructor: each option defaulted through the or
operator, the cooldown timestamp starting at zero. -/
def DinoEngine.new (jumpDistanceMinOpt jumpDistanceMaxOpt batSafeDistanceOpt
    jumpCooldownOpt : Option Int) : DinoEngine :=
  { jumpDistanceMin := jsOrIntDefault jumpDistanceMinOpt 2,
    jumpDistanceMax := jsOrIntDefault jumpDistanceMaxOpt 7,
    batSafeDistance := jsOrIntDefault batSafeDistanceOpt 3,
    jumpCooldown := jsOrIntDefault jumpCooldownOpt 400,
    lastJumpTime := 0 }

/-- The default-constructed engine, as new DinoEngine() in AutoPlayer.ts. -/
def DinoEngine.mk0 : DinoEngine :=
  DinoEngine.new Option.none Option.none Option.none Option.none

/-- Template interpolation of a possibly-undefined number, as in the
countdown reason string. -/
def jsShowOptNat : Option Nat → String
  | some n => toString n
  | Option.none => "undefined"

/-- Number.prototype.toFixed(1) on the velocity, modelled over Rat: round to
one decimal, ties toward positive infinity, and render with one digit after
the point. -/
def toFixed1 (q : Rat) : String :=
  let n : Int := ⌊q * 10 + 1 / 2⌋
  let mag := n.natAbs
  (if n < 0 then "-" else "") ++ toString (mag / 10) ++ "." ++ toString (mag % 10)

/-- decide of DinoEngine.ts. The wall clock read Date.now() is the explicit
argument now; the one mutable instance field lastJumpTime is threaded through
the returned engine. Every branch mirrors one return of the source, in source
order. -/
def DinoEngine.decide (e : DinoEngine) (now : Int) (state : ParsedState) :
    DinoDecision × DinoEngine :=
  if state.dinoGameState = some .START then
    ({ action := .start, confidence := 1.0,
       reason := "Game not started, press ENTER" }, e)
  else if state.dinoGameState = some .COUNTDOWN then
    ({ action := .wait, confidence := 1.0,
       reason := "Countdown: " ++ jsShowOptNat state.countdown }, e)
  else if state.dinoGameState = some .GAME_OVER then
    ({ action := .restart, confidence := 1.0,
       reason := "Game over, press ENTER to restart" }, e)
  else
    match state.dino, state.obstacle with
    | some dino, some obstacle =>
      if dino.isJumping then
        ({ action := .wait, confidence := 0.9,
           reason := "In air: Y=" ++ toString dino.y ++ ", V=" ++ toFixed1 dino.velocity }, e)
      else if obstacle.distance > e.jumpDistanceMax ∨ obstacle.type = "NONE" then
        ({ action := .wait, confidence := 0.8,
           reason := "Obstacle far: dist=" ++ toString obstacle.distance }, e)
      else if now - e.lastJumpTime < e.jumpCooldown then
        ({ action := .wait, confidence := 0.7,
           reason := "Jump cooldown active" }, e)
      else if obstacle.type = "BAT" ∧ obstacle.y > 0 ∧ obstacle.distance > e.batSafeDistance then
        ({ action := .wait, confidence := 0.9,
           reason := "BAT incoming, stay grounded: dist=" ++ toString obstacle.distance }, e)
      else if obstacle.y = 0 ∧ e.jumpDistanceMin ≤ obstacle.distance ∧
          obstacle.distance ≤ e.jumpDistanceMax then
        ({ action := .jump, confidence := 0.95,
           reason := "Ground obstacle at dist=" ++ toString obstacle.distance ++
                     ", type=" ++ obstacle.type },
         { e with lastJumpTime := now })
      else if obstacle.shouldJump ∧ dino.y = 0 then
        ({ action := .jump, confidence := 1.0,
           reason := "[JUMP NOW!] signal from game" },
         { e with lastJumpTime := now })
      else if obstacle.distance < e.jumpDistanceMin ∧ obstacle.y = 0 then
        ({ action := .jump, confidence := 0.6,
           reason := "EMERGENCY: obstacle at dist=" ++ toString obstacle.distance },
         { e with lastJumpTime := now })
      else
        ({ action := .wait, confidence := 0.7,
           reason := "Monitoring: dist=" ++ toString obstacle.distance ++
                     ", type=" ++ obstacle.type }, e)
    | _, _ =>
      ({ action := .none, confidence := 0.5, reason := "Insufficient state data" }, e)

/-! ## KeySender rate limiter (KeySender.ts) -/

/-- The abstract key names of KeySender.ts. -/
inductive GameKey
  | up
  | down
  | left
  | right
  | enter
  | escape
  | space
  | q
  | f
  | r
  | m
deriving Repr, DecidableEq

/-- Timing state of a KeySender.send call sequence: the wall clock and the
lastSendTime instance field. The model makes the sleep advance the clock by
exactly the requested amount and charges no time to anything else, which is
the fastest schedule the code permits; real executions can only be slower. -/
structure KeySenderTiming where
  clock : Int
  lastSendTime : Int
deriving Repr, DecidableEq

/-- The rate-limiting head of KeySender.send: read Date.now(), sleep the
remainder of minInterval when the previous send was too recent, then store
Date.now() into lastSendTime before dispatching the platform send. -/
def KeySender.sendStep (minInterval : Int) (s : KeySenderTiming) : KeySenderTiming :=
  let elapsed := s.clock - s.lastSendTime
  let sendClock := if elapsed < minInterval then s.clock + (minInterval - elapsed) else s.clock
  { clock := sendClock, lastSendTime := sendClock }

/-- n calls to KeySender.send issued back to back: each call arrives the
instant the previous one completes. -/
def KeySender.sendN (minInterval : Int) (s : KeySenderTiming) : Nat → KeySenderTiming
  | 0 => s
  | n + 1 => KeySender.sendN minInterval (KeySender.sendStep minInterval s) n

/-! ## AutoPlayer control loop fragments (AutoPlayer.ts) -/

/-- The AutoPlayerStats accumulator. Loop durations are in milliseconds; the
average is rational. The decisions tally is the Record keyed by action name. -/
structure AutoPlayerStats where
  loops : Nat
  keySends : Nat
  avgLoopTime : Rat
  maxLoopTime : Int
  decisions : List (String × Nat)
  startTime : Int
  gameScore : Option Nat := none
deriving Repr, DecidableEq

/-- initStats of AutoPlayer.ts. -/
def AutoPlayer.initStats (startTime : Int) : AutoPlayerStats :=
  { loops := 0, keySends := 0, avgLoopTime := 0, maxLoopTime := 0,
    decisions := [], startTime := startTime }

/-- The consecutive invalid-read threshold of the loop, maxInvalidReads. -/
def AutoPlayer.maxInvalidReads : Nat := 10

/-- What the top of a loop iteration does with the forced parse result. -/
inductive ParseCheck
  | exitInvalid
  | skipCycle (newCounter : Nat)
  | exitDead (pid : Option Nat)
  | proceed
deriving Repr, DecidableEq

/-- Lines 116 to 139 of the loop body: a null snapshot or one whose pid is
falsy (absent, or the falsy value zero) bumps the consecutive-failure counter
and either breaks the loop at the threshold or skips the iteration; a dead
target breaks the loop; otherwise the counter resets to zero and the cycle
proceeds to its work. -/
def AutoPlayer.parseCheck (stOpt : Option ParsedState) (counter : Nat) : ParseCheck :=
  let bump : ParseCheck :=
    if counter + 1 ≥ AutoPlayer.maxInvalidReads then .exitInvalid
    else .skipCycle (counter + 1)
  match stOpt with
  | Option.none => bump
  | some st =>
    if st.pid = Option.none ∨ st.pid = some 0 then bump
    else if ¬st.pidValid then .exitDead st.pid
    else .proceed

/-- The loop confronted with a run of consecutive failed parses starting from
a given counter value: returns whether it has broken out, and the counter
afterwards. -/
def AutoPlayer.consecutiveFailures (counter : Nat) : Nat → Bool × Nat
  | 0 => (false, counter)
  | k + 1 =>
    match AutoPlayer.parseCheck Option.none counter with
    | .exitInvalid => (true, counter + 1)
    | .skipCycle c2 => AutoPlayer.consecutiveFailures c2 k
    | _ => (false, counter)

/-- The options record an AutoPlayer instance keeps, after constructor
defaulting. -/
structure AutoPlayerOptions where
  pollInterval : Int
  maxLoops : Nat
  dryRun : Bool
  verbose : Bool
deriving Repr, DecidableEq

/-- How a loop iteration ends: breaking out of the loop, sleeping some
milliseconds before the next iteration, or continuing immediately. -/
inductive IterEnd
  | exit
  | sleeps (ms : Int)
  | continues
deriving Repr, DecidableEq

/-- The sleeping behaviour of one whole loop iteration, from the forced parse
to the pacing wait. elapsed is the wall-clock work duration of the iteration
measured at the pacing site; loops is the cycle count before this iteration.
A skipped iteration sleeps the full poll interval; a completed iteration
sleeps the positive part of pollInterval minus elapsed, or does not sleep when
that is zero. -/
def AutoPlayer.iterEnd (opts : AutoPlayerOptions) (counter loops : Nat)
    (stOpt : Option ParsedState) (elapsed : Int) : IterEnd :=
  match AutoPlayer.parseCheck stOpt counter with
  | .exitInvalid => .exit
  | .skipCycle _ => .sleeps opts.pollInterval
  | .exitDead _ => .exit
  | .proceed =>
    if 0 < opts.maxLoops ∧ opts.maxLoops ≤ loops + 1 then .exit
    else
      let waitTime := max 0 (opts.pollInterval - elapsed)
      if waitTime > 0 then .sleeps waitTime else .continues

/-- The key a decision action maps to in executeDecision: jump to space,
start and restart to enter, wait and none to no key. -/
def AutoPlayer.decisionKey : DinoAction → Option GameKey
  | .jump => some .space
  | .start => some .enter
  | .restart => some .enter
  | .wait => Option.none
  | .none => Option.none

/-- The action names used as keys of the decisions tally. -/
def DinoAction.name : DinoAction → String
  | .jump => "jump"
  | .wait => "wait"
  | .start => "start"
  | .restart => "restart"
  | .none => "none"

/-- Increment of the decisions Record at a key, defaulting a missing entry
to zero. -/
def bumpTally (tally : List (String × Nat)) (key : String) : List (String × Nat) :=
  match tally.lookup key with
  | some n => tally.map fun p => if p.1 = key then (p.1, n + 1) else p
  | Option.none => tally ++ [(key, 1)]

/-- executeDecision of AutoPlayer.ts: tally the decision, map it to a key;
with a key and dry run off, send it and count it only on success; with a key
in dry run, count it without sending. Returns the updated statistics and
whether KeySender.send was invoked; sendSucceeds stands for the send result. -/
def AutoPlayer.executeDecision (dryRun : Bool) (sendSucceeds : Bool)
    (decision : DinoDecision) (stats : AutoPlayerStats) : AutoPlayerStats × Bool :=
  let stats := { stats with decisions := bumpTally stats.decisions decision.action.name }
  match AutoPlayer.decisionKey decision.action with
  | some _ =>
    if ¬dryRun then
      (if sendSucceeds then { stats with keySends := stats.keySends + 1 } else stats, true)
    else
      ({ stats with keySends := stats.keySends + 1 }, false)
  | Option.none => (stats, false)

/-! ## CLI flag handling (src/autoplayer/cli.ts) -/

/-- The GameType union of AutoPlayer.ts. -/
inductive GameType
  | dino
  | snake
  | tictactoe
  | auto
deriving Repr, DecidableEq

/-- The record parseArgs builds. -/
structure CliArgs where
  game : GameType
  pollInterval : Int
  verbose : Bool
  dryRun : Bool
  maxLoops : Int
  help : Bool
deriving Repr, DecidableEq

/-- The initial result record of parseArgs, holding every default. -/
def defaultCliArgs : CliArgs :=
  { game := .auto, pollInterval := 30, verbose := false, dryRun := false,
    maxLoops := 0, help := false }

/-- JavaScript parseInt with radix ten: skip leading whitespace, accept an
optional sign, and require at least one leading digit; none models NaN. -/
def jsParseInt (s : String) : Option Int :=
  let cs := s.toList.dropWhile Char.isWhitespace
  match cs with
  | '-' :: rest =>
    let ds := rest.takeWhile Char.isDigit
    if ds.isEmpty then Option.none else some (-(digitsToNat ds : Int))
  | '+' :: rest =>
    let ds := rest.takeWhile Char.isDigit
    if ds.isEmpty then Option.none else some ((digitsToNat ds : Int))
  | _ =>
    let ds := cs.takeWhile Char.isDigit
    if ds.isEmpty then Option.none else some ((digitsToNat ds : Int))

/-- The game names accepted by the game flag. -/
def gameNameToType (g : String) : Option GameType :=
  if g = "dino" then some .dino
  else if g = "snake" then some .snake
  else if g = "tictactoe" then some .tictactoe
  else if g = "auto" then some .auto
  else Option.none

/-- The game flag handler: lower-case the next argument and keep it only when
it is one of the four accepted names; an absent or unrecognized value leaves
the current result untouched. -/
def applyGameFlag (v : Option String) (r : CliArgs) : CliArgs :=
  match v with
  | some g =>
    match gameNameToType (jsToLower g) with
    | some gt => { r with game := gt }
    | Option.none => r
  | Option.none => r

/-- parseArgs of cli.ts as a fold over the argument list: value-taking flags
consume the following argument, numeric values go through parseInt with the
or-default (so NaN and 0 both fall back), boolean flags set their field, and
anything unrecognized is silently skipped. -/
def parseArgsLoop : List String → CliArgs → CliArgs
  | [], r => r
  | arg :: rest, r =>
    if arg = "--game" ∨ arg = "-g" then
      match rest with
      | [] => applyGameFlag Option.none r
      | v :: rest2 => parseArgsLoop rest2 (applyGameFlag (some v) r)
    else if arg = "--poll" ∨ arg = "-p" then
      match rest with
      | [] => { r with pollInterval := jsOrIntDefault Option.none 30 }
      | v :: rest2 => parseArgsLoop rest2 { r with pollInterval := jsOrIntDefault (jsParseInt v) 30 }
    else if arg = "--verbose" ∨ arg = "-v" then
      parseArgsLoop rest { r with verbose := true }
    else if arg = "--dry-run" ∨ arg = "-d" then
      parseArgsLoop rest { r with dryRun := true }
    else if arg = "--max-loops" ∨ arg = "-m" then
      match rest with
      | [] => { r with maxLoops := jsOrIntDefault Option.none 0 }
      | v :: rest2 => parseArgsLoop rest2 { r with maxLoops := jsOrIntDefault (jsParseInt v) 0 }
    else if arg = "--help" ∨ arg = "-h" then
      parseArgsLoop rest { r with help := true }
    else
      parseArgsLoop rest r

/-- parseArgs of cli.ts. -/
def parseArgs (args : List String) : CliArgs :=
  parseArgsLoop args defaultCliArgs

/-! ## Shared concrete inputs for witnesses -/

/-- A concrete mid-game Dino Run snapshot used to instantiate theorems. -/
def playingSnapshot : ParsedState :=
  { timestamp := 0, pid := some 123, pidValid := true, screen := "DinoRun",
    status := "Score: 10 | State: PLAYING",
    dino := some { y := 0, velocity := 0, isJumping := false },
    obstacle := some { distance := 4, type := "CACTUS", y := 0, shouldJump := false },
    dinoGameState := some .PLAYING,
    raw := "" }

/-! ## C1: a snapshot with no extractable pid is minimal -/

/-- C1: for every snapshot text from which the target process identifier
cannot be extracted, parseContent returns a snapshot whose pidValid flag is
false and in which every game-specific field is absent. -/
theorem StateParser.no_pid_means_minimal (env : ParseEnv) (content : String)
    (h : extractPid content = Option.none) :
    (StateParser.parseContent env content).pidValid = false ∧
    (StateParser.parseContent env content).pid = Option.none ∧
    (StateParser.parseContent env content).dino = Option.none ∧
    (StateParser.parseContent env content).obstacle = Option.none ∧
    (StateParser.parseContent env content).dinoGameState = Option.none ∧
    (StateParser.parseContent env content).countdown = Option.none ∧
    (StateParser.parseContent env content).snake = Option.none ∧
    (StateParser.parseContent env content).tictactoe = Option.none ∧
    (StateParser.parseContent env content).menuItems = Option.none ∧
    (StateParser.parseContent env content).selectedIndex = Option.none := by
  simp [StateParser.parseContent, h]

/-- C1 witness: a concrete mid-write snapshot text with no process id line. -/
theorem StateParser.no_pid_means_minimal_witness :
    extractPid "CURRENT SCREEN: DinoRun" = Option.none ∧
    (StateParser.parseContent ⟨0, fun _ => true⟩ "CURRENT SCREEN: DinoRun").pidValid = false ∧
    (StateParser.parseContent ⟨0, fun _ => true⟩ "CURRENT SCREEN: DinoRun").dino = Option.none :=
  ⟨by decide,
   (StateParser.no_pid_means_minimal ⟨0, fun _ => true⟩ "CURRENT SCREEN: DinoRun" (by decide)).1,
   (StateParser.no_pid_means_minimal ⟨0, fun _ => true⟩ "CURRENT SCREEN: DinoRun" (by decide)).2.2.1⟩

/-! ## C9: the timestamp field does not influence decisions -/

/-- C9: two snapshots that differ only in the timestamp field produce the
same decision, the same reason and the same engine update. -/
theorem DinoEngine.timestamp_irrelevant (e : DinoEngine) (now : Int)
    (s : ParsedState) (t1 t2 : Int) :
    DinoEngine.decide e now { s with timestamp := t1 } =
    DinoEngine.decide e now { s with timestamp := t2 } := rfl

/-! ## C3: ground obstacle at distance four triggers a jump -/

/-- C3: in the PLAYING phase, with a ground obstacle at distance four, band
two to seven, the player grounded and no cooldown pending, decide returns
jump with confidence at least nine tenths and writes the current time into
the cooldown timestamp. -/
theorem DinoEngine.ground_obstacle_jump (e : DinoEngine) (now : Int) (s : ParsedState)
    (d : DinoState) (o : ObstacleState)
    (hphase : s.dinoGameState = some .PLAYING)
    (hdino : s.dino = some d) (hobs : s.obstacle = some o)
    (hair : d.isJumping = false)
    (hy : o.y = 0) (hdist : o.distance = 4) (htype : o.type ≠ "NONE")
    (hmin : e.jumpDistanceMin = 2) (hmax : e.jumpDistanceMax = 7)
    (hcool : e.jumpCooldown ≤ now - e.lastJumpTime) :
    (DinoEngine.decide e now s).1.action = .jump ∧
    (DinoEngine.decide e now s).1.confidence ≥ 0.9 ∧
    (DinoEngine.decide e now s).2.lastJumpTime = now := by
  have hnc : ¬(now - e.lastJumpTime < e.jumpCooldown) := by omega
  simp [DinoEngine.decide, hphase, hdino, hobs, hair, hy, hdist, htype, hmin, hmax, hnc]
  norm_num

/-- C3 witness: the engine with default tuning on the concrete playing
snapshot, one second after its last jump. -/
theorem DinoEngine.ground_obstacle_jump_witness :
    (DinoEngine.decide DinoEngine.mk0 1000 playingSnapshot).1.action = .jump ∧
    (DinoEngine.decide DinoEngine.mk0 1000 playingSnapshot).1.confidence ≥ 0.9 ∧
    (DinoEngine.decide DinoEngine.mk0 1000 playingSnapshot).2.lastJumpTime = 1000 :=
  DinoEngine.ground_obstacle_jump DinoEngine.mk0 1000 playingSnapshot
    { y := 0, velocity := 0, isJumping := false }
    { distance := 4, type := "CACTUS", y := 0, shouldJump := false }
    rfl rfl rfl rfl rfl rfl (by decide) rfl rfl (by decide)

/-! ## C2: the cooldown prevents a double jump -/

/-- The engine decide returns is the input engine, with the cooldown
timestamp set to the current time exactly on the jump branches. -/
theorem DinoEngine.decide_snd (e : DinoEngine) (now : Int) (s : ParsedState) :
    (DinoEngine.decide e now s).2 =
      if (DinoEngine.decide e now s).1.action = DinoAction.jump
      then { e with lastJumpTime := now } else e := by
  by_cases h1 : s.dinoGameState = some .START
  · simp [DinoEngine.decide, h1]
  by_cases h2 : s.dinoGameState = some .COUNTDOWN
  · simp [DinoEngine.decide, h1, h2]
  by_cases h3 : s.dinoGameState = some .GAME_OVER
  · simp [DinoEngine.decide, h1, h2, h3]
  rcases hd : s.dino with _ | d
  · simp [DinoEngine.decide, h1, h2, h3, hd]
  rcases ho : s.obstacle with _ | o
  · simp [DinoEngine.decide, h1, h2, h3, hd, ho]
  by_cases h4 : d.isJumping = true
  · simp [DinoEngine.decide, h1, h2, h3, hd, ho, h4]
  by_cases h5 : e.jumpDistanceMax < o.distance ∨ o.type = "NONE"
  · simp [DinoEngine.decide, h1, h2, h3, hd, ho, h4, h5]
  have h5a : ¬(e.jumpDistanceMax < o.distance) := fun hh => h5 (Or.inl hh)
  have h5b : ¬(o.type = "NONE") := fun hh => h5 (Or.inr hh)
  by_cases h6 : now - e.lastJumpTime < e.jumpCooldown
  · simp [DinoEngine.decide, h1, h2, h3, hd, ho, h4, h5, h5a, h5b, h6]
  by_cases h7 : o.type = "BAT" ∧ 0 < o.y ∧ e.batSafeDistance < o.distance
  · simp [DinoEngine.decide, h1, h2, h3, hd, ho, h4, h5, h5a, h5b, h6, h7]
  by_cases h8 : o.y = 0 ∧ e.jumpDistanceMin ≤ o.distance ∧ o.distance ≤ e.jumpDistanceMax
  · simp [DinoEngine.decide, h1, h2, h3, hd, ho, h4, h5, h5a, h5b, h6, h7, h8]
  by_cases h9 : o.shouldJump = true ∧ d.y = 0
  · simp [DinoEngine.decide, h1, h2, h3, hd, ho, h4, h5, h5a, h5b, h6, h7, h8, h9]
  by_cases h10 : o.distance < e.jumpDistanceMin ∧ o.y = 0
  · have h11 : ¬(e.jumpDistanceMin ≤ o.distance) := by omega
    simp [DinoEngine.decide, h1, h2, h3, hd, ho, h4, h5, h5a, h5b, h6, h7, h8, h9, h10, h11]
  · simp [DinoEngine.decide, h1, h2, h3, hd, ho, h4, h5, h5a, h5b, h6, h7, h8, h9, h10]

/-- Every branch of decide that returns jump stores the current time into the
cooldown timestamp. -/
theorem DinoEngine.decide_jump_sets_cooldown (e : DinoEngine) (now : Int) (s : ParsedState) :
    (DinoEngine.decide e now s).1.action = .jump →
    (DinoEngine.decide e now s).2.lastJumpTime = now := by
  intro h
  rw [DinoEngine.decide_snd, if_pos h]

/-- decide never modifies the tunable parameters of the engine, only the
cooldown timestamp. -/
theorem DinoEngine.decide_preserves_tuning (e : DinoEngine) (now : Int) (s : ParsedState) :
    (DinoEngine.decide e now s).2.jumpCooldown = e.jumpCooldown ∧
    (DinoEngine.decide e now s).2.jumpDistanceMax = e.jumpDistanceMax := by
  rw [DinoEngine.decide_snd]
  constructor <;> (split <;> rfl)

/-- C2: two consecutive decide calls within the cooldown window, both in the
PLAYING phase with a hazard in the actionable band and the player grounded:
when the first returns jump the second returns wait, so the two calls never
both return jump. -/
theorem DinoEngine.cooldown_single_jump (e : DinoEngine) (t1 t2 : Int)
    (s1 s2 : ParsedState) (d1 d2 : DinoState) (o1 o2 : ObstacleState)
    (hphase1 : s1.dinoGameState = some .PLAYING)
    (hphase2 : s2.dinoGameState = some .PLAYING)
    (hdino1 : s1.dino = some d1) (hobs1 : s1.obstacle = some o1)
    (hdino2 : s2.dino = some d2) (hobs2 : s2.obstacle = some o2)
    (hair1 : d1.isJumping = false) (hair2 : d2.isJumping = false)
    (hband1 : e.jumpDistanceMin ≤ o1.distance ∧ o1.distance ≤ e.jumpDistanceMax ∧
              o1.type ≠ "NONE")
    (hband2 : e.jumpDistanceMin ≤ o2.distance ∧ o2.distance ≤ e.jumpDistanceMax ∧
              o2.type ≠ "NONE")
    (hwindow : t2 - t1 < e.jumpCooldown) :
    ((DinoEngine.decide e t1 s1).1.action = .jump →
      (DinoEngine.decide (DinoEngine.decide e t1 s1).2 t2 s2).1.action = .wait) ∧
    ¬((DinoEngine.decide e t1 s1).1.action = .jump ∧
      (DinoEngine.decide (DinoEngine.decide e t1 s1).2 t2 s2).1.action = .jump) := by
  have key : (DinoEngine.decide e t1 s1).1.action = .jump →
      (DinoEngine.decide (DinoEngine.decide e t1 s1).2 t2 s2).1.action = .wait := by
    intro hj
    have hlast := DinoEngine.decide_jump_sets_cooldown e t1 s1 hj
    have htune := DinoEngine.decide_preserves_tuning e t1 s1
    generalize hE : (DinoEngine.decide e t1 s1).2 = e1 at hlast htune ⊢
    have hfar : ¬(e1.jumpDistanceMax < o2.distance) := by
      rw [htune.2]; omega
    have hcold : t2 - e1.lastJumpTime < e1.jumpCooldown := by
      rw [hlast, htune.1]; omega
    simp [DinoEngine.decide, hphase2, hdino2, hobs2, hair2, hband2.2.2, hfar, hcold]
  exact ⟨key, fun hc => by have := key hc.1; rw [this] at hc; exact absurd hc.2 (by simp)⟩

/-- C2 witness: the default engine jumps at time 1000 and waits at time 1100
on the same in-band snapshot. -/
theorem DinoEngine.cooldown_single_jump_witness :
    (DinoEngine.decide DinoEngine.mk0 1000 playingSnapshot).1.action = .jump ∧
    (DinoEngine.decide (DinoEngine.decide DinoEngine.mk0 1000 playingSnapshot).2
        1100 playingSnapshot).1.action = .wait :=
  have hj : (DinoEngine.decide DinoEngine.mk0 1000 playingSnapshot).1.action = .jump := by
    decide
  ⟨hj,
   (DinoEngine.cooldown_single_jump DinoEngine.mk0 1000 1100 playingSnapshot playingSnapshot
      { y := 0, velocity := 0, isJumping := false }
      { y := 0, velocity := 0, isJumping := false }
      { distance := 4, type := "CACTUS", y := 0, shouldJump := false }
      { distance := 4, type := "CACTUS", y := 0, shouldJump := false }
      rfl rfl rfl rfl rfl rfl rfl rfl (by decide) (by decide) (by decide)).1 hj⟩

/-! ## C4: the injector rate limit lower-bounds completion time -/

/-- With the clock resting exactly at the last send time, the next send
completes one full minimum interval later. -/
theorem KeySender.sendStep_at_rest (minInterval : Int) (hm : 0 < minInterval) (c : Int) :
    KeySender.sendStep minInterval { clock := c, lastSendTime := c } =
      { clock := c + minInterval, lastSendTime := c + minInterval } := by
  simp [KeySender.sendStep, hm]

/-- From a state whose clock equals the last send time, n back-to-back sends
advance the clock by exactly n minimum intervals. -/
theorem KeySender.sendN_from_rest (minInterval : Int) (hm : 0 < minInterval) (c : Int) :
    ∀ n : Nat, KeySender.sendN minInterval { clock := c, lastSendTime := c } n =
      { clock := c + n * minInterval, lastSendTime := c + n * minInterval } := by
  intro n
  induction n generalizing c with
  | zero => simp [KeySender.sendN]
  | succ k ih =>
    rw [KeySender.sendN, KeySender.sendStep_at_rest minInterval hm c, ih (c + minInterval)]
    congr 1 <;> push_cast <;> ring

/-- A send never completes before it arrives. -/
theorem KeySender.sendStep_clock_mono (minInterval : Int) (s : KeySenderTiming) :
    s.clock ≤ (KeySender.sendStep minInterval s).clock := by
  unfold KeySender.sendStep
  dsimp only
  split <;> omega

/-- C4: n plus one calls to send issued back to back complete no earlier
than n whole minimum intervals after the clock at the first call; equally,
once the limiter is engaged every consecutive pair of sends is exactly one
minimum interval apart in the fastest schedule. -/
theorem KeySender.rate_limit_lower_bound (minInterval : Int) (hm : 0 < minInterval) :
    (∀ (s : KeySenderTiming) (n : Nat),
       s.clock + n * minInterval ≤ (KeySender.sendN minInterval s (n + 1)).clock) ∧
    (∀ c : Int, (KeySender.sendStep minInterval { clock := c, lastSendTime := c }).clock
       = c + minInterval) := by
  constructor
  · intro s n
    rw [KeySender.sendN]
    have h1 : s.clock ≤ (KeySender.sendStep minInterval s).clock :=
      KeySender.sendStep_clock_mono minInterval s
    have h2 : KeySender.sendStep minInterval s =
        { clock := (KeySender.sendStep minInterval s).clock,
          lastSendTime := (KeySender.sendStep minInterval s).clock } := rfl
    rw [h2, KeySender.sendN_from_rest minInterval hm _ n]
    dsimp only
    have hnn : (0 : Int) ≤ (n : Int) * minInterval := by positivity
    omega
  · intro c
    rw [KeySender.sendStep_at_rest minInterval hm c]

/-- C4 witness: three back-to-back sends at a thirty millisecond minimum
interval finish at least sixty milliseconds after the first arrival. -/
theorem KeySender.rate_limit_lower_bound_witness :
    (0 : Int) + 2 * 30 ≤ (KeySender.sendN 30 { clock := 0, lastSendTime := 0 } 3).clock :=
  (KeySender.rate_limit_lower_bound 30 (by decide)).1 { clock := 0, lastSendTime := 0 } 2

/-! ## C5: the consecutive-failure threshold -/

/-- C5 counterexample: after five consecutive null parses the loop has not
broken out; the fifth failed read still lands below the threshold of ten and
merely skips the cycle. -/
theorem AutoPlayer.five_failures_do_not_terminate :
    AutoPlayer.consecutiveFailures 0 5 = (false, 5) ∧
    AutoPlayer.parseCheck Option.none 4 = .skipCycle 5 := by
  decide

/-- C5 amended: the loop breaks out exactly at the tenth consecutive failed
parse, and any snapshot carrying a live, truthy pid resets the counter by
sending the cycle on to its work. -/
theorem AutoPlayer.failure_threshold_ten :
    (AutoPlayer.consecutiveFailures 0 10).1 = true ∧
    (AutoPlayer.consecutiveFailures 0 9).1 = false ∧
    (∀ (counter : Nat) (st : ParsedState),
       st.pid ≠ Option.none → st.pid ≠ some 0 → st.pidValid = true →
       AutoPlayer.parseCheck (some st) counter = .proceed) := by
  refine ⟨by decide, by decide, ?_⟩
  intro counter st h1 h2 h3
  simp [AutoPlayer.parseCheck, h1, h2, h3]

/-- C5 witness: the reset branch applied to the concrete playing snapshot
with the counter at seven. -/
theorem AutoPlayer.failure_threshold_ten_witness :
    AutoPlayer.parseCheck (some playingSnapshot) 7 = .proceed :=
  AutoPlayer.failure_threshold_ten.2.2 7 playingSnapshot (by decide) (by decide) (by decide)

/-! ## C6: invalid flag values -/

/-- C6 counterexample: a non-numeric poll interval is not rejected; parseArgs
returns the same record as an empty command line, with the invalid value
silently replaced by the default thirty. -/
theorem parseArgs_silently_coerces_invalid_poll :
    parseArgs ["--poll", "abc"] = defaultCliArgs ∧
    (parseArgs ["--poll", "abc"]).pollInterval = 30 ∧
    parseArgs ["--game", "chess"] = defaultCliArgs := by
  decide

/-- C6 amended: parseArgs is total and never fails: a poll value that does
not parse as an integer, and also the falsy value zero, are silently coerced
to the default thirty; an unrecognized game name is silently ignored leaving
auto-detection; an invalid max-loops value is coerced to zero. -/
theorem parseArgs_total_with_defaults :
    (∀ v : String, jsParseInt v = Option.none → parseArgs ["--poll", v] = defaultCliArgs) ∧
    (∀ v : String, jsParseInt v = some 0 → (parseArgs ["--poll", v]).pollInterval = 30) ∧
    (∀ g : String, gameNameToType (jsToLower g) = Option.none →
       parseArgs ["--game", g] = defaultCliArgs) ∧
    (∀ v : String, jsParseInt v = Option.none → parseArgs ["--max-loops", v] = defaultCliArgs) := by
  refine ⟨?_, ?_, ?_, ?_⟩
  · intro v h
    simp [parseArgs, parseArgsLoop, h, jsOrIntDefault, defaultCliArgs]
  · intro v h
    simp [parseArgs, parseArgsLoop, h, jsOrIntDefault, defaultCliArgs]
  · intro g h
    simp [parseArgs, parseArgsLoop, applyGameFlag, h, defaultCliArgs]
  · intro v h
    simp [parseArgs, parseArgsLoop, h, jsOrIntDefault, defaultCliArgs]

/-- C6 witness: the amended behaviour at the concrete invalid values abc and
chess. -/
theorem parseArgs_total_with_defaults_witness :
    parseArgs ["--poll", "abc"] = defaultCliArgs ∧
    parseArgs ["--game", "chess"] = defaultCliArgs :=
  ⟨parseArgs_total_with_defaults.1 "abc" (by decide),
   parseArgs_total_with_defaults.2.2.1 "chess" (by decide)⟩

/-! ## C7: cached parse idempotence -/

/-- C7: after any parse call that returned a snapshot, a second call without
forceRefresh against a source whose modification time has not advanced
returns the very same snapshot and parser state and does not read the file. -/
theorem StateParser.parse_cache_idempotent (env1 env2 : ParseEnv) (fs : FileSys)
    (ps ps2 : StateParserState) (b rf : Bool) (s : ParsedState)
    (h : StateParser.parse env1 fs ps b =
      { result := some s, state := ps2, readFile := rf }) :
    StateParser.parse env2 fs ps2 false =
      { result := some s, state := ps2, readFile := false } := by
  unfold StateParser.parse at h ⊢
  split at h
  · rename_i hc
    simp only [ParseOutcome.mk.injEq] at h
    obtain ⟨hres, hstate, -⟩ := h
    subst hstate
    rw [if_pos ⟨by simp, by rw [hres]; rfl, hc.2.2⟩, hres]
  · rename_i hc
    split at h
    · rename_i hex
      simp only [ParseOutcome.mk.injEq] at h
      obtain ⟨hres, hstate, -⟩ := h
      subst hstate
      rw [if_pos ⟨by simp, by rfl, by simp [StateParser.hasChanged]⟩]
      simp [hres]
    · simp at h

/-- C7 witness: a concrete snapshot file read once by a forced parse and then
served from the cache. -/
theorem StateParser.parse_cache_idempotent_witness :
    StateParser.parse ⟨0, fun _ => true⟩ ⟨true, 5, "PROCESS ID: 42"⟩
        { lastModified := 5,
          cachedState := some { timestamp := 0, pid := some 42, pidValid := true,
                                screen := "", status := "", raw := "PROCESS ID: 42" } }
        false =
      { result := some { timestamp := 0, pid := some 42, pidValid := true,
                         screen := "", status := "", raw := "PROCESS ID: 42" },
        state := { lastModified := 5,
                   cachedState := some { timestamp := 0, pid := some 42, pidValid := true,
                                         screen := "", status := "", raw := "PROCESS ID: 42" } },
        readFile := false } :=
  StateParser.parse_cache_idempotent ⟨0, fun _ => true⟩ ⟨0, fun _ => true⟩
    ⟨true, 5, "PROCESS ID: 42"⟩ {} _ true true _ (by decide)

/-! ## C8: pacing at the end of a cycle -/

/-- C8 counterexample: an iteration that skips because the snapshot is
unparseable sleeps the full thirty millisecond poll interval even though its
work took ten milliseconds, where the claimed pacing rule demands twenty. -/
theorem AutoPlayer.skip_cycle_sleeps_fixed :
    AutoPlayer.iterEnd { pollInterval := 30, maxLoops := 0, dryRun := false, verbose := false }
        0 0 Option.none 10 = .sleeps 30 ∧
    (30 : Int) ≠ max 0 (30 - 10) := by
  decide

/-- C8 amended: an iteration whose work completes, with no stop condition,
sleeps exactly the positive part of pollInterval minus the work duration, not
sleeping at all when that is zero; an iteration skipped over an unparseable
snapshot sleeps the full poll interval regardless of work duration. -/
theorem AutoPlayer.pacing_after_work (opts : AutoPlayerOptions) (loops : Nat) :
    (∀ (counter : Nat) (stOpt : Option ParsedState) (elapsed : Int),
       AutoPlayer.parseCheck stOpt counter = .proceed →
       ¬(0 < opts.maxLoops ∧ opts.maxLoops ≤ loops + 1) →
       AutoPlayer.iterEnd opts counter loops stOpt elapsed =
         if 0 < max 0 (opts.pollInterval - elapsed)
         then .sleeps (max 0 (opts.pollInterval - elapsed)) else .continues) ∧
    (∀ (counter c2 : Nat) (stOpt : Option ParsedState) (elapsed : Int),
       AutoPlayer.parseCheck stOpt counter = .skipCycle c2 →
       AutoPlayer.iterEnd opts counter loops stOpt elapsed = .sleeps opts.pollInterval) := by
  constructor
  · intro counter stOpt elapsed hp hml
    unfold AutoPlayer.iterEnd
    rw [hp]
    simp [hml]
  · intro counter c2 stOpt elapsed hsk
    unfold AutoPlayer.iterEnd
    rw [hsk]

/-- C8 witness: a completed cycle with ten milliseconds of work at a thirty
millisecond poll interval sleeps twenty milliseconds. -/
theorem AutoPlayer.pacing_after_work_witness :
    AutoPlayer.iterEnd { pollInterval := 30, maxLoops := 0, dryRun := false, verbose := false }
      3 0 (some playingSnapshot) 10 = .sleeps 20 := by
  have h := (AutoPlayer.pacing_after_work
      { pollInterval := 30, maxLoops := 0, dryRun := false, verbose := false } 0).1
      3 (some playingSnapshot) 10 (by decide) (by decide)
  simpa using h

/-! ## C10: dry-run counts actionable decisions without injecting -/

/-- In dry run, executeDecision adds one to the keys-sent counter exactly
when the decision maps to a concrete key. -/
theorem AutoPlayer.executeDecision_dry_keySends (sendSucceeds : Bool)
    (d : DinoDecision) (stats : AutoPlayerStats) :
    (AutoPlayer.executeDecision true sendSucceeds d stats).1.keySends =
      stats.keySends + (if (AutoPlayer.decisionKey d.action).isSome then 1 else 0) := by
  unfold AutoPlayer.executeDecision
  cases hk : AutoPlayer.decisionKey d.action <;> simp [hk]

/-- In dry run the keys-sent counter grows over a run of decisions by the
number of decisions that map to a concrete key. -/
theorem AutoPlayer.dryrun_fold_keySends (ds : List DinoDecision) (s0 : AutoPlayerStats) :
    (ds.foldl (fun st d => (AutoPlayer.executeDecision true true d st).1) s0).keySends
      = s0.keySends + (ds.filter fun d => (AutoPlayer.decisionKey d.action).isSome).length := by
  induction ds generalizing s0 with
  | nil => simp
  | cons d tl ih =>
    simp only [List.foldl_cons, List.filter_cons]
    rw [ih, AutoPlayer.executeDecision_dry_keySends true d s0]
    cases hk : AutoPlayer.decisionKey d.action <;> simp [hk] <;> omega

/-- C10: over any run of decisions in dry-run mode the keys-sent statistic
grows by exactly the number of actionable decisions, so from fresh statistics
the final count equals the number of actionable decisions, and the injector
is never invoked. -/
theorem AutoPlayer.dryrun_counts (ds : List DinoDecision) (s0 : AutoPlayerStats) :
    ((ds.foldl (fun st d => (AutoPlayer.executeDecision true true d st).1) s0).keySends
       = s0.keySends + (ds.filter fun d => (AutoPlayer.decisionKey d.action).isSome).length) ∧
    (∀ t : Int,
       (ds.foldl (fun st d => (AutoPlayer.executeDecision true true d st).1)
           (AutoPlayer.initStats t)).keySends
         = (ds.filter fun d => (AutoPlayer.decisionKey d.action).isSome).length) ∧
    (∀ (d : DinoDecision) (st : AutoPlayerStats) (sb : Bool),
       (AutoPlayer.executeDecision true sb d st).2 = false) := by
  refine ⟨AutoPlayer.dryrun_fold_keySends ds s0, ?_, ?_⟩
  · intro t
    have h := AutoPlayer.dryrun_fold_keySends ds (AutoPlayer.initStats t)
    simpa [AutoPlayer.initStats] using h
  · intro d st sb
    unfold AutoPlayer.executeDecision
    cases hk : AutoPlayer.decisionKey d.action <;> simp [hk]
